import Mathlib

/-! Verification development for the opDriveStats engagement analytics scripts.

The definitions below are a shallow embedding of the Python source files
engagement_gauge.py, engagement_gauge_dev.py and lib/helpers.py.
Nanosecond timestamps (Python arbitrary-precision ints) are modelled as
integers, and physical quantities (odometer kilometres, speeds, torques,
derived percentages) as rationals; Python float arithmetic is idealised as
exact rational arithmetic, and Python round(x, n) as decimal
round-half-to-even on rationals. -/

/-- Constant STEER_INTERVENTION_THRESHOLD = 1.5 (engagement_gauge.py line 36). -/
def STEER_INTERVENTION_THRESHOLD : ℚ := 3 / 2

/-- Constant STEER_RESOLUTION_THRESHOLD = 0.3 (engagement_gauge.py line 37). -/
def STEER_RESOLUTION_THRESHOLD : ℚ := 3 / 10

/-- Constant INTERVENTION_TIMEOUT_NS = 10 seconds (engagement_gauge.py line 38). -/
def INTERVENTION_TIMEOUT_NS : ℤ := 10 * 1000000000

/-- Constant ENGAGEMENT_BUFFER_NS = 3 seconds (engagement_gauge.py line 39). -/
def ENGAGEMENT_BUFFER_NS : ℤ := 3 * 1000000000

/-- Constant VEGO_MOVING_THRESHOLD = 1.0 (engagement_gauge.py line 43). -/
def VEGO_MOVING_THRESHOLD : ℚ := 1

/-- Fixed-window running-mean filter (lib/helpers.py, class MovingAverageFilter).
The deque of stored samples is a list with newest values appended at the right. -/
structure MovingAverageFilter where
  window_size : ℕ
  values : List ℚ
deriving Repr, DecidableEq

/-- Method MovingAverageFilter.update: append the sample, evict the oldest
sample beyond the window size, and return the new filter state together with
the mean of the retained samples. -/
def MovingAverageFilter.update (f : MovingAverageFilter) (val : ℚ) :
    MovingAverageFilter × ℚ :=
  let vs0 := f.values ++ [val]
  let vs := if vs0.length > f.window_size then vs0.drop 1 else vs0
  ({ f with values := vs }, vs.sum / (vs.length : ℚ))

/-- State of the odometer distance tracker carried across a drive
(engagement_gauge.py, process_drive_offline lines 218-239). -/
structure OdoState where
  odo_start : Option ℚ
  odo_end : Option ℚ
  engaged_distance : ℚ
  last_odo : Option ℚ
deriving Repr, DecidableEq

/-- Initial odometer tracker state of a fresh drive. -/
def initOdoState : OdoState :=
  { odo_start := none, odo_end := none, engaged_distance := 0, last_odo := none }

/-- Processing of one decoded odometer reading, translated from
engagement_gauge.py lines 218-239: on the first reading record odo_start and
last_odo; once last_odo is set compute the increment, add it to
engaged_distance only when it lies in (0, 1.0) and the drive is currently
engaged, and then refresh last_odo with the new reading unconditionally;
finally refresh odo_end. -/
def odoStep (currently_engaged : Bool) (st : OdoState) (odo_val : ℚ) : OdoState :=
  let st1 :=
    if st.odo_start = none then
      { st with odo_start := some odo_val, last_odo := some odo_val }
    else st
  let st2 :=
    match st1.last_odo with
    | some lo =>
        let distance_increment := odo_val - lo
        let st1a :=
          if 0 < distance_increment ∧ distance_increment < 1 ∧ currently_engaged then
            { st1 with engaged_distance := st1.engaged_distance + distance_increment }
          else st1
        { st1a with last_odo := some odo_val }
    | none => st1
  { st2 with odo_end := some odo_val }

/-- Drive-scoped engagement transition counters
(engagement_gauge.py, process_drive_offline lines 116-120). -/
structure EngagementState where
  engagement_state_changes : ℕ
  interventions : ℕ
  last_engagement_state : Option Bool
  pending_reengagement : Bool
deriving Repr, DecidableEq

/-- Initial engagement counter state of a fresh drive. -/
def initEngagementState : EngagementState :=
  { engagement_state_changes := 0, interventions := 0,
    last_engagement_state := none, pending_reengagement := false }

/-- Processing of one controlsState active flag, restricted to the transition
counting logic of engagement_gauge.py lines 172-193: on a value flip after the
first sample increment engagement_state_changes; a flip to false sets
pending_reengagement; a flip to true with pending_reengagement set completes a
cycle and increments interventions; a flip to true without the flag is the
first engagement of the drive and counts nothing. -/
def engagementStep (st : EngagementState) (current_state : Bool) : EngagementState :=
  let st1 :=
    match st.last_engagement_state with
    | some prev =>
        if current_state ≠ prev then
          let sta := { st with engagement_state_changes := st.engagement_state_changes + 1 }
          if current_state = false then
            { sta with pending_reengagement := true }
          else if sta.pending_reengagement then
            { sta with interventions := sta.interventions + 1, pending_reengagement := false }
          else sta
        else st
    | none => st
  { st1 with last_engagement_state := some current_state }

/-- Segment-scoped state of the steering intervention hysteresis detector
(engagement_gauge.py lines 158-159 and 272-299). -/
structure SteerState where
  in_intervention : Bool
  last_steer_intervention_time : ℤ
  steer_intervention_count : ℕ
deriving Repr, DecidableEq

/-- Initial steering detector state of a fresh segment. -/
def initSteerState : SteerState :=
  { in_intervention := false, last_steer_intervention_time := 0,
    steer_intervention_count := 0 }

/-- Evaluation of the steering intervention detector on one filtered torque
difference at time now, translated from engagement_gauge.py lines 272-299
(the detector is only reached while engaged and stable; this function models
that evaluation): enter Intervening and count when the difference exceeds the
high threshold, the detector is idle and the debounce timeout has elapsed;
leave Intervening whenever the difference drops below the low threshold. -/
def steerStep (st : SteerState) (diff : ℚ) (now : ℤ) : SteerState :=
  if diff > STEER_INTERVENTION_THRESHOLD ∧ st.in_intervention = false ∧
      now - st.last_steer_intervention_time > INTERVENTION_TIMEOUT_NS then
    { steer_intervention_count := st.steer_intervention_count + 1,
      in_intervention := true,
      last_steer_intervention_time := now }
  else if diff < STEER_RESOLUTION_THRESHOLD ∧ st.in_intervention then
    { st with in_intervention := false }
  else st

/-- Evaluation of a list of filtered torque differences with timestamps. -/
def steerRun (st : SteerState) (samples : List (ℚ × ℤ)) : SteerState :=
  samples.foldl (fun s p => steerStep s p.1 p.2) st

/-- Segment-scoped state of the cruise hold tracker
(engagement_gauge.py lines 163-164 and 241-249). -/
structure CruiseHoldState where
  cruise_press_time : ℤ
  last_cruise_state : ℤ
  last_cruise_time : Option ℤ
deriving Repr, DecidableEq

/-- Processing of one decoded cruise state sample, translated from
engagement_gauge.py lines 241-249: when a previous sample exists, add the
elapsed time only when the previously stored mask was non-zero and the delta
is strictly positive, then always store the new mask and timestamp. -/
def cruiseHoldStep (st : CruiseHoldState) (logMonoTime : ℤ) (cruise_state : ℤ) :
    CruiseHoldState :=
  let pt :=
    match st.last_cruise_time with
    | some lt =>
        let delta := logMonoTime - lt
        if st.last_cruise_state ≠ 0 ∧ delta > 0 then st.cruise_press_time + delta
        else st.cruise_press_time
    | none => st.cruise_press_time
  { cruise_press_time := pt, last_cruise_state := cruise_state,
    last_cruise_time := some logMonoTime }

/-- Configuration record of one speed bucket
(engagement_gauge_dev.py, SPEED_BUCKETS, lines 52-71). -/
structure SpeedBucketCfg where
  key : String
  min_speed : ℚ
  max_speed : Option ℚ
deriving Repr, DecidableEq

/-- Constant SPEED_BUCKETS from engagement_gauge_dev.py lines 52-71
(labels omitted; they are never read by the aggregation logic). -/
def SPEED_BUCKETS : List SpeedBucketCfg :=
  [{ key := "city", min_speed := 0, max_speed := some (153 / 10) },
   { key := "road", min_speed := 153 / 10, max_speed := some 25 },
   { key := "highway", min_speed := 25, max_speed := none }]

/-- Range test of one bucket, translated from the loop condition of
engagement_gauge_dev.py lines 215-219. -/
def bucketMatches (b : SpeedBucketCfg) (speed_mps : ℚ) : Bool :=
  decide (b.min_speed ≤ speed_mps) &&
    (match b.max_speed with
     | none => true
     | some mx => decide (speed_mps < mx))

/-- Function _speed_bucket_for (engagement_gauge_dev.py lines 214-220): return
the key of the first bucket whose range contains the speed, falling back to
the last bucket's key when no range test passes. -/
def speed_bucket_for (speed_mps : ℚ) : String :=
  match SPEED_BUCKETS.find? (fun b => bucketMatches b speed_mps) with
  | some b => b.key
  | none => (SPEED_BUCKETS.getLastD { key := "", min_speed := 0, max_speed := none }).key

/-- Per-bucket accumulator (engagement_gauge_dev.py lines 379-384). -/
structure SpeedBucketData where
  time : ℤ
  engaged_time : ℤ
  distance : ℚ
  engaged_distance : ℚ
deriving Repr, DecidableEq

/-- Fresh per-bucket accumulator, all counters zero. -/
def initBucketData : SpeedBucketData :=
  { time := 0, engaged_time := 0, distance := 0, engaged_distance := 0 }

/-- The dictionary drive_stats['speed_buckets'] restricted to its three keys. -/
structure SpeedBucketsAcc where
  city : SpeedBucketData
  road : SpeedBucketData
  highway : SpeedBucketData
deriving Repr, DecidableEq

/-- Lookup drive_stats['speed_buckets'][key]; unknown keys resolve to the
highway field, mirroring the fallback key of speed_bucket_for. -/
def SpeedBucketsAcc.get (m : SpeedBucketsAcc) (key : String) : SpeedBucketData :=
  if key = "city" then m.city
  else if key = "road" then m.road
  else m.highway

/-- In-place mutation of drive_stats['speed_buckets'][key]. -/
def SpeedBucketsAcc.modify (m : SpeedBucketsAcc) (key : String)
    (f : SpeedBucketData → SpeedBucketData) : SpeedBucketsAcc :=
  if key = "city" then { m with city := f m.city }
  else if key = "road" then { m with road := f m.road }
  else { m with highway := f m.highway }

/-- Sum of the three buckets' accumulated time. -/
def bucketTimeSum (m : SpeedBucketsAcc) : ℤ :=
  m.city.time + m.road.time + m.highway.time

/-- One carState sample as seen by the dev-version carState handler: its
timestamp, speed, and the value of currently_engaged at the moment the sample
is processed. -/
structure CarStateSample where
  logMonoTime : ℤ
  vEgo : ℚ
  engaged : Bool
deriving Repr, DecidableEq

/-- Segment-and-drive state read and written by the dev-version carState
handler (engagement_gauge_dev.py lines 577-601). -/
structure CarStateAcc where
  buckets : SpeedBucketsAcc
  last_carstate_time : Option ℤ
  prev_speed : ℚ
  prev_engaged : Bool
  prev_moving : Bool
  drive_time : ℤ
  drive_time_active : ℤ
deriving Repr, DecidableEq

/-- Fresh carState handler state (engagement_gauge_dev.py lines 433-438). -/
def initCarStateAcc : CarStateAcc :=
  { buckets := { city := initBucketData, road := initBucketData, highway := initBucketData },
    last_carstate_time := none, prev_speed := 0, prev_engaged := false,
    prev_moving := false, drive_time := 0, drive_time_active := 0 }

/-- The per-bucket additions of engagement_gauge_dev.py lines 584-592: add the
time delta to the bucket's time, and the distance increment to its distance,
duplicating both into the engaged counters when prev_engaged held. -/
def bucketAdd (prev_engaged : Bool) (delta : ℤ) (distance_delta : ℚ)
    (b : SpeedBucketData) : SpeedBucketData :=
  let b1 := { b with time := b.time + delta }
  let b2 := if prev_engaged then
      { b1 with engaged_time := b1.engaged_time + delta } else b1
  let b3 := { b2 with distance := b2.distance + distance_delta }
  if prev_engaged then
    { b3 with engaged_distance := b3.engaged_distance + distance_delta }
  else b3

/-- The carState handler of engagement_gauge_dev.py lines 577-601: on each
sample, when a previous sample exists and the time delta is positive, classify
the previous sample's speed into a bucket, add the delta to that bucket's time
and the distance increment prev_speed * delta (nanoseconds scaled to hours of
metres per second, that is kilometres) to its distance, duplicating both into
the engaged counters when prev_engaged held; also accumulate drive_time and
drive_time_active when prev_moving held; finally refresh prev_moving,
prev_engaged, last_carstate_time and prev_speed from the current sample. -/
def carStateStepDev (st : CarStateAcc) (msg : CarStateSample) : CarStateAcc :=
  let moving := msg.vEgo > VEGO_MOVING_THRESHOLD
  let st1 :=
    match st.last_carstate_time with
    | some lt =>
        let delta := msg.logMonoTime - lt
        let sta :=
          if delta > 0 then
            let bucket_key := speed_bucket_for st.prev_speed
            let distance_delta : ℚ := st.prev_speed * ((delta : ℚ) / 1000000000) / 1000
            { st with buckets :=
                st.buckets.modify bucket_key (bucketAdd st.prev_engaged delta distance_delta) }
          else st
        if sta.prev_moving ∧ delta > 0 then
          let stb := { sta with drive_time := sta.drive_time + delta }
          if stb.prev_engaged then
            { stb with drive_time_active := stb.drive_time_active + delta }
          else stb
        else sta
    | none => st
  { st1 with
      prev_moving := moving, prev_engaged := msg.engaged,
      last_carstate_time := some msg.logMonoTime, prev_speed := msg.vEgo }

/-- One raw CAN frame as delivered inside a can log message: source bus,
arbitration address and payload bytes. -/
structure CanFrame where
  src : ℕ
  address : ℕ
  dat : List ℕ
deriving Repr, DecidableEq

/-- Payload byte access m.dat[i]; all source reads are guarded by length
checks, so the default value is never observable. -/
def byteAt (dat : List ℕ) (i : ℕ) : ℕ := dat.getD i 0

/-- One decoded log event as consumed by process_drive_offline in
engagement_gauge.py: the which() dispatch distinguishes controlsState, can and
carState messages; every other event kind is ignored by the loop. -/
inductive LogMsg where
  | controlsState (logMonoTime : ℤ) (active : Bool)
  | can (logMonoTime : ℤ) (frames : List CanFrame)
  | carState (logMonoTime : ℤ) (vEgo : ℚ)
  | other (logMonoTime : ℤ)
deriving Repr, DecidableEq

/-- Drive-level mutable variables of process_drive_offline
(engagement_gauge.py lines 99-120), persistent across segments. -/
structure DriveAcc where
  total_time : ℤ
  active_time : ℤ
  drive_time : ℤ
  drive_time_active : ℤ
  cruise_press_time_ns : ℤ
  odo_start : Option ℚ
  odo_end : Option ℚ
  engaged_distance : ℚ
  last_odo : Option ℚ
  currently_engaged : Bool
  engagement_state_changes : ℕ
  interventions : ℕ
  total_steer_interventions : ℕ
  last_engagement_state : Option Bool
  pending_reengagement : Bool
deriving Repr, DecidableEq

/-- Fresh drive-level state (engagement_gauge.py lines 99-120). -/
def initDriveAcc : DriveAcc :=
  { total_time := 0, active_time := 0, drive_time := 0, drive_time_active := 0,
    cruise_press_time_ns := 0, odo_start := none, odo_end := none,
    engaged_distance := 0, last_odo := none, currently_engaged := false,
    engagement_state_changes := 0, interventions := 0,
    total_steer_interventions := 0, last_engagement_state := none,
    pending_reengagement := false }

/-- Segment-level mutable variables of process_drive_offline
(engagement_gauge.py lines 133-164), recreated for every segment. -/
structure SegAcc where
  total_time : ℤ
  active_time : ℤ
  drive_time : ℤ
  drive_time_active : ℤ
  cruise_press_time : ℤ
  start_time : ℤ
  last_active_time : ℤ
  segment_odo_start : Option ℚ
  segment_odo_end : Option ℚ
  in_intervention : Bool
  last_steer_intervention_time : ℤ
  prev_moving : Bool
  prev_engaged : Bool
  last_carstate_time : Option ℤ
  last_cruise_state : ℕ
  last_cruise_time : Option ℤ
  steer_intervention_count : ℕ
  last_engagement_change_time : Option ℤ
  engagement_stable : Bool
  filter_mdps : MovingAverageFilter
  filter_eps : MovingAverageFilter
  filtered_mdps : Option ℚ
  filtered_eps : Option ℚ
deriving Repr, DecidableEq

/-- Fresh segment-level state (engagement_gauge.py lines 133-164); the
minus-one sentinels of start_time and last_active_time are kept verbatim. -/
def initSegAcc : SegAcc :=
  { total_time := 0, active_time := 0, drive_time := 0, drive_time_active := 0,
    cruise_press_time := 0, start_time := -1, last_active_time := -1,
    segment_odo_start := none, segment_odo_end := none, in_intervention := false,
    last_steer_intervention_time := 0, prev_moving := false, prev_engaged := false,
    last_carstate_time := none, last_cruise_state := 0, last_cruise_time := none,
    steer_intervention_count := 0, last_engagement_change_time := none,
    engagement_stable := true,
    filter_mdps := { window_size := 10, values := [] },
    filter_eps := { window_size := 10, values := [] },
    filtered_mdps := none, filtered_eps := none }

/-- The controlsState branch of process_drive_offline
(engagement_gauge.py lines 167-209). -/
def processControlsState (d : DriveAcc) (s : SegAcc) (t : ℤ) (active : Bool) :
    DriveAcc × SegAcc :=
  let s := if s.start_time = -1 then { s with start_time := t } else s
  let ds :=
    match d.last_engagement_state with
    | some prev =>
        if active ≠ prev then
          let d1 := { d with engagement_state_changes := d.engagement_state_changes + 1 }
          let s1 := { s with last_engagement_change_time := some t, engagement_stable := false }
          let d2 :=
            if active = false then { d1 with pending_reengagement := true }
            else if d1.pending_reengagement then
              { d1 with interventions := d1.interventions + 1, pending_reengagement := false }
            else d1
          (d2, s1)
        else (d, s)
    | none => (d, s)
  let d := { ds.1 with last_engagement_state := some active }
  let s := ds.2
  let s :=
    match s.last_engagement_change_time with
    | some c => if t - c > ENGAGEMENT_BUFFER_NS then { s with engagement_stable := true } else s
    | none => s
  let ds :=
    if active then
      let s1 :=
        if s.last_active_time ≠ -1 then
          { s with active_time := s.active_time + (t - s.last_active_time) }
        else s
      ({ d with currently_engaged := true }, { s1 with last_active_time := t })
    else
      ({ d with currently_engaged := false }, { s with last_active_time := -1 })
  let d := ds.1
  let s := ds.2
  let s := { s with total_time := t - s.start_time }
  let s := { s with prev_engaged := d.currently_engaged }
  (d, s)

/-- Handling of one CAN frame inside the can branch of process_drive_offline
(engagement_gauge.py lines 212-300): the Hyundai cluster frame at source 0,
address 1264 carries the 24-bit odometer in bytes 5..7 scaled by 0.1 and the
cruise switch mask in the lower three bits of byte 0; when the intervention
check is enabled, frames at source 0 address 357 and source 1 address 559
update the two torque filters, and the hysteresis detector is evaluated while
engaged and stable. -/
def processCanFrame (enable_intervention_check : Bool) (t : ℤ)
    (ds : DriveAcc × SegAcc) (m : CanFrame) : DriveAcc × SegAcc :=
  let d := ds.1
  let s := ds.2
  let ds1 :=
    if m.src = 0 ∧ m.address = 1264 then
      let ds0 :=
        if m.dat.length ≥ 8 then
          let odo_val : ℚ :=
            ((byteAt m.dat 7 * 65536 + byteAt m.dat 6 * 256 + byteAt m.dat 5 : ℕ) : ℚ) / 10
          let d1 :=
            if d.odo_start = none then
              { d with odo_start := some odo_val, last_odo := some odo_val }
            else d
          let s1 :=
            if s.segment_odo_start = none then { s with segment_odo_start := some odo_val } else s
          let s2 := { s1 with segment_odo_end := some odo_val }
          let d2 :=
            match d1.last_odo with
            | some lo =>
                let distance_increment := odo_val - lo
                let d1a :=
                  if 0 < distance_increment ∧ distance_increment < 1 ∧ d1.currently_engaged then
                    { d1 with engaged_distance := d1.engaged_distance + distance_increment }
                  else d1
                { d1a with last_odo := some odo_val }
            | none => d1
          ({ d2 with odo_end := some odo_val }, s2)
        else (d, s)
      let d3 := ds0.1
      let s3 := ds0.2
      let s4 :=
        if m.dat.length ≥ 1 then
          let cruise_state := byteAt m.dat 0 % 8
          let s3a :=
            match s3.last_cruise_time with
            | some lt =>
                let delta := t - lt
                if s3.last_cruise_state ≠ 0 ∧ delta > 0 then
                  { s3 with cruise_press_time := s3.cruise_press_time + delta }
                else s3
            | none => s3
          { s3a with last_cruise_state := cruise_state, last_cruise_time := some t }
        else s3
      (d3, s4)
    else (d, s)
  let d := ds1.1
  let s := ds1.2
  if enable_intervention_check then
    let s :=
      if m.src = 0 ∧ m.address = 357 ∧ m.dat.length ≥ 2 then
        let raw : ℕ := byteAt m.dat 1 % 16 * 256 + byteAt m.dat 0
        let val_mdps : ℚ := -((raw : ℚ) / 100 - 2048 / 100) - 1 / 5
        let fo := s.filter_mdps.update val_mdps
        { s with filter_mdps := fo.1, filtered_mdps := some fo.2 }
      else if m.src = 1 ∧ m.address = 559 ∧ m.dat.length ≥ 3 then
        let rawb := byteAt m.dat 2
        let raw : ℤ := if rawb ≥ 128 then (rawb : ℤ) - 256 else (rawb : ℤ)
        let val_eps : ℚ := (raw : ℚ) * (1 / 8)
        let fo := s.filter_eps.update val_eps
        { s with filter_eps := fo.1, filtered_eps := some fo.2 }
      else s
    match s.filtered_mdps, s.filtered_eps with
    | some fm, some fe =>
        if d.currently_engaged ∧ s.engagement_stable then
          let diff := |fm - fe|
          if diff > STEER_INTERVENTION_THRESHOLD ∧ s.in_intervention = false ∧
              t - s.last_steer_intervention_time > INTERVENTION_TIMEOUT_NS then
            (d, { s with
                    steer_intervention_count := s.steer_intervention_count + 1,
                    in_intervention := true,
                    last_steer_intervention_time := t })
          else if diff < STEER_RESOLUTION_THRESHOLD ∧ s.in_intervention then
            (d, { s with in_intervention := false })
          else (d, s)
        else (d, s)
    | _, _ => (d, s)
  else (d, s)

/-- The carState branch of process_drive_offline
(engagement_gauge.py lines 302-315). -/
def processCarState (d : DriveAcc) (s : SegAcc) (t : ℤ) (vEgo : ℚ) :
    DriveAcc × SegAcc :=
  let moving := vEgo > VEGO_MOVING_THRESHOLD
  let s1 :=
    match s.last_carstate_time with
    | some lt =>
        let delta := t - lt
        if s.prev_moving ∧ delta > 0 then
          let sa := { s with drive_time := s.drive_time + delta }
          if sa.prev_engaged then
            { sa with drive_time_active := sa.drive_time_active + delta }
          else sa
        else s
    | none => s
  (d, { s1 with
          prev_moving := moving, prev_engaged := d.currently_engaged,
          last_carstate_time := some t })

/-- Dispatch over msg.which() in the segment loop of process_drive_offline. -/
def processMsg (enable_intervention_check : Bool) (ds : DriveAcc × SegAcc)
    (msg : LogMsg) : DriveAcc × SegAcc :=
  match msg with
  | .controlsState t active => processControlsState ds.1 ds.2 t active
  | .can t frames => frames.foldl (processCanFrame enable_intervention_check t) ds
  | .carState t v => processCarState ds.1 ds.2 t v
  | .other _ => ds

/-- Accumulation of segment totals into the drive totals
(engagement_gauge.py lines 317-323). -/
def accumulateSegment (d : DriveAcc) (s : SegAcc) : DriveAcc :=
  { d with
      total_time := d.total_time + s.total_time,
      active_time := d.active_time + s.active_time,
      drive_time := d.drive_time + s.drive_time,
      drive_time_active := d.drive_time_active + s.drive_time_active,
      cruise_press_time_ns := d.cruise_press_time_ns + s.cruise_press_time,
      total_steer_interventions := d.total_steer_interventions + s.steer_intervention_count }

/-- Processing of one segment of a drive (engagement_gauge.py lines 122-327):
a segment is an event list, or none when its event stream cannot be obtained
or parsed; LogReader then yields no events (unreadable, undecompressible,
undersized and capnp-invalid files all leave its entry list empty), so the
segment loop body never runs and only zero totals are accumulated. -/
def processSegment (enable_intervention_check : Bool) (d : DriveAcc)
    (seg : Option (List LogMsg)) : DriveAcc :=
  let msgs := match seg with | some ms => ms | none => []
  let ds := msgs.foldl (processMsg enable_intervention_check) (d, initSegAcc)
  accumulateSegment ds.1 ds.2

/-- Decimal round-half-to-even of a rational, the idealisation of Python
round applied to the scaled value. -/
def roundHalfEven (y : ℚ) : ℤ :=
  let f := ⌊y⌋
  let frac := y - (f : ℚ)
  if frac < 1 / 2 then f
  else if 1 / 2 < frac then f + 1
  else if f % 2 = 0 then f else f + 1

/-- Python round(x, ndigits) idealised on rationals. -/
def pyRound (x : ℚ) (ndigits : ℕ) : ℚ :=
  ((roundHalfEven (x * 10 ^ ndigits) : ℚ) : ℚ) / 10 ^ ndigits

/-- The drive statistics dictionary returned by process_drive_offline, with
the fields computed in engagement_gauge.py lines 329-362 (version and git
metadata, which are copied through from an external extractor, are omitted). -/
structure DriveStatistics where
  total_time : ℤ
  active_time : ℤ
  drive_time : ℤ
  drive_time_active : ℤ
  cruise_press_time_ns : ℤ
  odo_start : Option ℚ
  odo_end : Option ℚ
  odo_distance : Option ℚ
  engaged_distance : Option ℚ
  engagement_pct : ℚ
  drive_time_engagement_pct : ℚ
  cruise_press_seconds : ℚ
  cruise_press_seconds_per_hour : ℚ
  engagement_pct_odo : Option ℚ
  steer_interventions_per_100km : Option ℚ
  interventions_per_100km : Option ℚ
  total_state_changes : ℕ
  intervention_count : ℕ
  steer_intervention_count : ℕ
deriving Repr, DecidableEq

/-- The odo_distance field computed in engagement_gauge.py line 330. -/
def finalOdoDistance (d : DriveAcc) : Option ℚ :=
  match d.odo_start, d.odo_end with
  | some a, some b => some (pyRound (b - a) 1)
  | _, _ => none

/-- Finalisation of the drive statistics (engagement_gauge.py lines 329-362).
The guard of the per-100km rates translates the Python truthiness test
on odo_distance: the value must be present, non-zero and positive. -/
def finalizeDrive (d : DriveAcc) : DriveStatistics :=
  { total_time := d.total_time
    active_time := d.active_time
    drive_time := d.drive_time
    drive_time_active := d.drive_time_active
    cruise_press_time_ns := d.cruise_press_time_ns
    odo_start := d.odo_start
    odo_end := d.odo_end
    odo_distance := finalOdoDistance d
    engaged_distance :=
      if d.odo_start ≠ none then some (pyRound d.engaged_distance 1) else none
    engagement_pct :=
      if d.total_time > 0 then
        pyRound ((d.active_time : ℚ) / (d.total_time : ℚ) * 100) 2
      else 0
    drive_time_engagement_pct :=
      if d.drive_time > 0 then
        pyRound ((d.drive_time_active : ℚ) / (d.drive_time : ℚ) * 100) 2
      else 0
    cruise_press_seconds := pyRound ((d.cruise_press_time_ns : ℚ) / 1000000000) 2
    cruise_press_seconds_per_hour :=
      if d.drive_time > 0 then
        pyRound ((d.cruise_press_time_ns : ℚ) / (d.drive_time : ℚ) * 3600) 2
      else 0
    engagement_pct_odo :=
      match finalOdoDistance d with
      | some dist =>
          if dist ≠ 0 ∧ dist > 0 then
            some (pyRound (d.engaged_distance / dist * 100) 2)
          else none
      | none => none
    steer_interventions_per_100km :=
      match finalOdoDistance d with
      | some dist =>
          if dist ≠ 0 ∧ dist > 0 then
            some (pyRound ((d.total_steer_interventions : ℚ) / dist * 100) 2)
          else none
      | none => none
    interventions_per_100km :=
      match finalOdoDistance d with
      | some dist =>
          if dist ≠ 0 ∧ dist > 0 then
            some (pyRound ((d.interventions : ℚ) / dist * 100) 2)
          else none
      | none => none
    total_state_changes := d.engagement_state_changes
    intervention_count := d.interventions
    steer_intervention_count := d.total_steer_interventions }

/-- Function process_drive_offline (engagement_gauge.py lines 84-396) over an
ordered list of segment event streams. The per-drive intervention capability
flag, which the source derives from a fixed calendar cutover on the drive
name, is passed explicitly. -/
def process_drive_offline (enable_intervention_check : Bool)
    (segments : List (Option (List LogMsg))) : DriveStatistics :=
  finalizeDrive (segments.foldl (processSegment enable_intervention_check) initDriveAcc)

/-- One entry of the engagement database, a JSON object keyed by optional
device_id and drive fields; the remaining fields are opaque to
upsert_drive_to_db and are modelled as an association list. -/
structure DBEntry where
  device_id : Option String
  drive : Option String
  fields : List (String × String)
deriving Repr, DecidableEq

/-- Key comparison of upsert_drive_to_db (lib/helpers.py line 221). -/
def entryMatches (new_entry entry : DBEntry) : Bool :=
  decide (entry.device_id = new_entry.device_id) && decide (entry.drive = new_entry.drive)

/-- Function upsert_drive_to_db (lib/helpers.py lines 213-227): replace the
first entry with the same (device_id, drive) pair, or append the new entry. -/
def upsert_drive_to_db : List DBEntry → DBEntry → List DBEntry
  | [], new_entry => [new_entry]
  | entry :: rest, new_entry =>
      if entryMatches new_entry entry then new_entry :: rest
      else entry :: upsert_drive_to_db rest new_entry

/-! Helper lemmas shared by several claims. -/

lemma speed_bucket_city (v : ℚ) (h1 : 0 ≤ v) (h2 : v < 153 / 10) :
    speed_bucket_for v = "city" := by
  unfold speed_bucket_for SPEED_BUCKETS bucketMatches
  simp [List.find?, h1, h2]

lemma speed_bucket_road (v : ℚ) (h1 : 153 / 10 ≤ v) (h2 : v < 25) :
    speed_bucket_for v = "road" := by
  unfold speed_bucket_for SPEED_BUCKETS bucketMatches
  simp [List.find?, h1, h2, not_lt.2 h1]

lemma speed_bucket_highway (v : ℚ) (h1 : 25 ≤ v) :
    speed_bucket_for v = "highway" := by
  unfold speed_bucket_for SPEED_BUCKETS bucketMatches
  have h2 : ¬(v < 153 / 10) := not_lt.2 (le_trans (by norm_num) h1)
  have h3 : ¬(v < 25) := not_lt.2 h1
  simp [List.find?, h1, h2, h3]

lemma speed_bucket_neg (v : ℚ) (h1 : v < 0) :
    speed_bucket_for v = "highway" := by
  unfold speed_bucket_for SPEED_BUCKETS bucketMatches
  have h2 : ¬(0 ≤ v) := not_le.2 h1
  have h3 : ¬(153 / 10 ≤ v) := not_le.2 (lt_trans h1 (by norm_num))
  have h4 : ¬((25 : ℚ) ≤ v) := not_le.2 (lt_trans h1 (by norm_num))
  simp [List.find?, h2, h3, h4]

lemma speed_bucket_for_cases (v : ℚ) :
    speed_bucket_for v = "city" ∨ speed_bucket_for v = "road" ∨
      speed_bucket_for v = "highway" := by
  rcases lt_or_le v 0 with h | h
  · exact Or.inr (Or.inr (speed_bucket_neg v h))
  · rcases lt_or_le v (153 / 10) with h2 | h2
    · exact Or.inl (speed_bucket_city v h h2)
    · rcases lt_or_le v 25 with h3 | h3
      · exact Or.inr (Or.inl (speed_bucket_road v h2 h3))
      · exact Or.inr (Or.inr (speed_bucket_highway v h3))

/-! Claim C1: odometer delta handling. -/

/-- Reading sequence of the C1 example: 100.0, 100.0, 101.5, 100.05 km. -/
def c1Readings : List ℚ := [100, 100, 203 / 2, 2001 / 20]

/-- Claim C1, counterexample: with the engagement flag true throughout, the
reading sequence [100.0, 100.0, 101.5, 100.05] leaves engaged_distance at 0
rather than approximately 0.05, because last_odo is refreshed by the rejected
1.5 km jump (after the first three readings last_odo is 101.5, not 100.0), so
the final delta of -1.45 km is also rejected. -/
theorem c1_counterexample :
    ((c1Readings.take 3).foldl (odoStep true) initOdoState).last_odo = some (203 / 2) ∧
    (c1Readings.foldl (odoStep true) initOdoState).engaged_distance = 0 := by
  constructor
  · simp [c1Readings, List.foldl, odoStep, initOdoState]
  · simp [c1Readings, List.foldl, odoStep, initOdoState]
    norm_num
    simp
    norm_num

lemma odoStep_rejected (engaged : Bool) (st : OdoState) (lo v : ℚ)
    (hlo : st.last_odo = some lo) (hrej : ¬(0 < v - lo ∧ v - lo < 1)) :
    (odoStep engaged st v).engaged_distance = st.engaged_distance ∧
    (odoStep engaged st v).last_odo = some v := by
  rcases st with ⟨os, oe, ed, lo0⟩
  have hlo1 : lo0 = some lo := hlo
  subst hlo1
  have hc1 : ¬(0 < v - lo ∧ v - lo < 1 ∧ engaged = true) := fun h => hrej ⟨h.1, h.2.1⟩
  have hc2 : ¬(lo < v ∧ v - lo < 1 ∧ engaged = true) := fun h => hrej ⟨sub_pos.2 h.1, h.2.1⟩
  by_cases hos : os = none
  · subst hos
    simp [odoStep]
  · simp [odoStep, hos, hc1, hc2]

/-- Claim C1, amended: a reading whose delta from last_odo lies outside the
open interval (0, 1.0) km never mutates engaged_distance, but it always
refreshes last_odo with the new reading (last_odo advances on every reading
once initialised, accepted or not); consequently the sequence
[100.0, 100.0, 101.5, 100.05] with the engagement flag true throughout yields
engaged_distance = 0. -/
theorem c1_amended :
    (∀ (engaged : Bool) (st : OdoState) (lo v : ℚ), st.last_odo = some lo →
      ¬(0 < v - lo ∧ v - lo < 1) →
      (odoStep engaged st v).engaged_distance = st.engaged_distance ∧
      (odoStep engaged st v).last_odo = some v) ∧
    (c1Readings.foldl (odoStep true) initOdoState).engaged_distance = 0 := by
  constructor
  · exact odoStep_rejected
  · simp [c1Readings, List.foldl, odoStep, initOdoState]
    norm_num
    simp
    norm_num

/-- Tracker state of the C1 witness: last accepted odometer value 100 km. -/
def c1WitnessState : OdoState :=
  { odo_start := some 100, odo_end := some 100, engaged_distance := 0, last_odo := some 100 }

/-- Claim C1, witness: the amended theorem applied to the rejected 1.5 km jump
from 100.0 to 101.5 km. -/
theorem c1_witness :
    (odoStep true c1WitnessState (203 / 2)).engaged_distance = 0 ∧
    (odoStep true c1WitnessState (203 / 2)).last_odo = some (203 / 2) := by
  have h := c1_amended.1 true c1WitnessState 100 (203 / 2) rfl (by norm_num)
  simpa [c1WitnessState] using h

/-! Claim C2: engagement state machine counters. -/

lemma engagementStep_interventions (st : EngagementState) (a : Bool) :
    (engagementStep st a).interventions =
      if a = true ∧ st.last_engagement_state = some false ∧ st.pending_reengagement
      then st.interventions + 1 else st.interventions := by
  rcases st with ⟨c, i, ls, p⟩
  rcases ls with _ | prev
  · rcases a <;> rcases p <;> rfl
  · rcases prev <;> rcases a <;> rcases p <;> rfl

lemma engagementStep_le (st : EngagementState) (a : Bool)
    (h : st.interventions ≤ st.engagement_state_changes) :
    (engagementStep st a).interventions ≤ (engagementStep st a).engagement_state_changes := by
  rcases st with ⟨c, i, ls, p⟩
  rcases ls with _ | prev
  · exact h
  · rcases prev <;> rcases a <;> rcases p <;>
      first
      | exact h
      | exact h.trans (Nat.le_succ c)
      | exact Nat.succ_le_succ h

lemma foldl_engagement_le (samples : List Bool) (st : EngagementState)
    (h : st.interventions ≤ st.engagement_state_changes) :
    (samples.foldl engagementStep st).interventions ≤
      (samples.foldl engagementStep st).engagement_state_changes := by
  induction samples generalizing st with
  | nil => exact h
  | cons a rest ih => exact ih _ (engagementStep_le st a h)

/-- Claim C2: for every controlsState sample sequence the drive-level
interventions counter never exceeds engagement_state_changes; a step
increments interventions exactly when it is a transition to active with
pending_reengagement set (a completed disengage-then-re-engage cycle), so the
drive's first engagement, where the flag is still clear, never counts; and
the active-flag sequence [true, false, true] from the unknown initial state
yields engagement_state_changes = 2 and interventions = 1. -/
theorem c2_engagement_cycles (samples : List Bool) :
    (samples.foldl engagementStep initEngagementState).interventions ≤
      (samples.foldl engagementStep initEngagementState).engagement_state_changes ∧
    (∀ (st : EngagementState) (a : Bool),
      (engagementStep st a).interventions =
        if a = true ∧ st.last_engagement_state = some false ∧ st.pending_reengagement
        then st.interventions + 1 else st.interventions) ∧
    ([true, false, true].foldl engagementStep initEngagementState).engagement_state_changes = 2 ∧
    ([true, false, true].foldl engagementStep initEngagementState).interventions = 1 :=
  ⟨foldl_engagement_le samples initEngagementState (Nat.le_refl 0),
    engagementStep_interventions, rfl, rfl⟩

/-! Claim C3: steering intervention hysteresis and debounce. -/

/-- Filtered-diff samples of the C3 example: diffs [0.1, 2.0, 2.0, 0.1] at one
second spacing, starting 20 seconds into the time base. -/
def c3Samples : List (ℚ × ℤ) :=
  [(1 / 10, 20000000000), (2, 21000000000), (2, 22000000000), (1 / 10, 23000000000)]

/-- Claim C3: on the filtered-diff sequence [0.1, 2.0, 2.0, 0.1] evaluated
while engaged and stable, the detector enters Intervening exactly once (at the
first 2.0, incrementing the count to 1), stays there over the repeated 2.0
without double counting, and leaves Intervening at the final 0.1; moreover a
sample never increments the count while already Intervening or while the
debounce window is still closed, and the Intervening-to-Idle transition
happens whenever the diff is below the low threshold, independent of the
debounce timer. -/
theorem c3_steer_detector :
    (steerRun initSteerState (c3Samples.take 1) = initSteerState ∧
     steerRun initSteerState (c3Samples.take 2) =
       { in_intervention := true, last_steer_intervention_time := 21000000000,
         steer_intervention_count := 1 } ∧
     steerRun initSteerState (c3Samples.take 3) =
       { in_intervention := true, last_steer_intervention_time := 21000000000,
         steer_intervention_count := 1 } ∧
     steerRun initSteerState c3Samples =
       { in_intervention := false, last_steer_intervention_time := 21000000000,
         steer_intervention_count := 1 }) ∧
    (∀ (st : SteerState) (diff : ℚ) (now : ℤ), st.in_intervention = true →
      (steerStep st diff now).steer_intervention_count = st.steer_intervention_count) ∧
    (∀ (st : SteerState) (diff : ℚ) (now : ℤ),
      now - st.last_steer_intervention_time ≤ INTERVENTION_TIMEOUT_NS →
      (steerStep st diff now).steer_intervention_count = st.steer_intervention_count) ∧
    (∀ (st : SteerState) (diff : ℚ) (now : ℤ), st.in_intervention = true →
      diff < STEER_RESOLUTION_THRESHOLD →
      (steerStep st diff now).in_intervention = false) := by
  refine ⟨⟨?_, ?_, ?_, ?_⟩, ?_, ?_, ?_⟩
  · simp [c3Samples, steerRun, List.foldl, steerStep, initSteerState,
      STEER_INTERVENTION_THRESHOLD, STEER_RESOLUTION_THRESHOLD, INTERVENTION_TIMEOUT_NS]
    norm_num
  · simp [c3Samples, steerRun, List.foldl, steerStep, initSteerState,
      STEER_INTERVENTION_THRESHOLD, STEER_RESOLUTION_THRESHOLD, INTERVENTION_TIMEOUT_NS]
    norm_num
  · simp [c3Samples, steerRun, List.foldl, steerStep, initSteerState,
      STEER_INTERVENTION_THRESHOLD, STEER_RESOLUTION_THRESHOLD, INTERVENTION_TIMEOUT_NS]
    norm_num
  · simp [c3Samples, steerRun, List.foldl, steerStep, initSteerState,
      STEER_INTERVENTION_THRESHOLD, STEER_RESOLUTION_THRESHOLD, INTERVENTION_TIMEOUT_NS]
    norm_num
  · intro st diff now h
    simp [steerStep, h]
    split_ifs <;> rfl
  · intro st diff now h
    have hc : ¬(INTERVENTION_TIMEOUT_NS < now - st.last_steer_intervention_time) := not_lt.2 h
    simp [steerStep, hc]
    split_ifs <;> rfl
  · intro st diff now h1 h2
    simp [steerStep, h1, h2]

/-- Detector state of the C3 witness: Intervening with count 5. -/
def c3WitnessState : SteerState :=
  { in_intervention := true, last_steer_intervention_time := 0, steer_intervention_count := 5 }

/-- Detector state of the C3 witness for the debounce conjunct: Idle, window
still closed. -/
def c3WitnessStateIdle : SteerState :=
  { in_intervention := false, last_steer_intervention_time := 0, steer_intervention_count := 7 }

/-- Claim C3, witness: the general conjuncts applied at concrete states. -/
theorem c3_witness :
    (steerStep c3WitnessState 2 1).steer_intervention_count = 5 ∧
    (steerStep c3WitnessStateIdle 2 5).steer_intervention_count = 7 ∧
    (steerStep c3WitnessState (1 / 10) 23).in_intervention = false :=
  ⟨c3_steer_detector.2.1 c3WitnessState 2 1 rfl,
   c3_steer_detector.2.2.1 c3WitnessStateIdle 2 5
     (by norm_num [c3WitnessStateIdle, INTERVENTION_TIMEOUT_NS]),
   c3_steer_detector.2.2.2 c3WitnessState (1 / 10) 23 rfl
     (by norm_num [STEER_RESOLUTION_THRESHOLD])⟩

/-! Claim C8: totality of the speed bucket classifier. -/

/-- Claim C8: the speed bucket classifier is total with values among the three
bucket keys; speeds in [0, 15.3) map to city, [15.3, 25) to road, at least 25
to highway, and a strictly negative speed falls through every range test and
lands on the highway fallback rather than city. -/
theorem c8_speed_bucket_total (v : ℚ) :
    (0 ≤ v → v < 153 / 10 → speed_bucket_for v = "city") ∧
    (153 / 10 ≤ v → v < 25 → speed_bucket_for v = "road") ∧
    (25 ≤ v → speed_bucket_for v = "highway") ∧
    (v < 0 → speed_bucket_for v = "highway") ∧
    (speed_bucket_for v = "city" ∨ speed_bucket_for v = "road" ∨
      speed_bucket_for v = "highway") :=
  ⟨speed_bucket_city v, speed_bucket_road v, speed_bucket_highway v,
   speed_bucket_neg v, speed_bucket_for_cases v⟩

/-- Claim C8, witness: the classifier evaluated in each range and at a
negative speed. -/
theorem c8_witness :
    speed_bucket_for 3 = "city" ∧ speed_bucket_for 20 = "road" ∧
    speed_bucket_for 30 = "highway" ∧ speed_bucket_for (-1) = "highway" :=
  ⟨(c8_speed_bucket_total 3).1 (by norm_num) (by norm_num),
   (c8_speed_bucket_total 20).2.1 (by norm_num) (by norm_num),
   (c8_speed_bucket_total 30).2.2.1 (by norm_num),
   (c8_speed_bucket_total (-1)).2.2.2.1 (by norm_num)⟩

/-! Claim C9: cruise hold accumulator guard. -/

lemma cruiseHoldStep_mono (st : CruiseHoldState) (t m : ℤ) :
    st.cruise_press_time ≤ (cruiseHoldStep st t m).cruise_press_time := by
  rcases st with ⟨pt, ls, lt⟩
  rcases lt with _ | lt0
  · exact le_refl _
  · show pt ≤ if ls ≠ 0 ∧ t - lt0 > 0 then pt + (t - lt0) else pt
    split_ifs with h
    · linarith [h.2]
    · exact le_refl _

lemma cruiseHoldRun_mono (samples : List (ℤ × ℤ)) (st : CruiseHoldState) :
    st.cruise_press_time ≤
      (samples.foldl (fun s p => cruiseHoldStep s p.1 p.2) st).cruise_press_time := by
  induction samples generalizing st with
  | nil => exact le_refl _
  | cons a rest ih => exact le_trans (cruiseHoldStep_mono st a.1 a.2) (ih _)

/-- Claim C9: the cruise hold accumulator is monotone non-decreasing over any
sample sequence, and a non-positive inter-sample delta never increases
cruise_press_time even when the stored mask is non-zero, because the code
requires both a non-zero previous mask and a strictly positive delta. -/
theorem c9_cruise_guard :
    (∀ (samples : List (ℤ × ℤ)) (st : CruiseHoldState),
      st.cruise_press_time ≤
        (samples.foldl (fun s p => cruiseHoldStep s p.1 p.2) st).cruise_press_time) ∧
    (∀ (st : CruiseHoldState) (t m lt : ℤ), st.last_cruise_time = some lt →
      t - lt ≤ 0 →
      (cruiseHoldStep st t m).cruise_press_time = st.cruise_press_time) := by
  refine ⟨cruiseHoldRun_mono, ?_⟩
  intro st t m lt hlt hd
  rcases st with ⟨pt, ls, lt0⟩
  have hlt1 : lt0 = some lt := hlt
  subst hlt1
  show (if ls ≠ 0 ∧ t - lt > 0 then pt + (t - lt) else pt) = pt
  rw [if_neg]
  intro h
  linarith [h.2]

/-- Tracker state of the C9 witness: non-zero stored mask. -/
def c9State : CruiseHoldState :=
  { cruise_press_time := 0, last_cruise_state := 5, last_cruise_time := some 10 }

/-- Claim C9, witness: a zero delta with non-zero stored mask adds nothing,
and one step is monotone. -/
theorem c9_witness :
    (cruiseHoldStep c9State 10 3).cruise_press_time = 0 ∧
    (0 : ℤ) ≤ (cruiseHoldStep c9State 10 3).cruise_press_time :=
  ⟨c9_cruise_guard.2 c9State 10 3 10 rfl (by norm_num),
   c9_cruise_guard.1 [(10, 3)] c9State⟩

/-! Claim C10: upsert into the engagement database. -/

lemma upsert_no_match (db : List DBEntry) (new_entry : DBEntry)
    (h : ∀ e ∈ db, entryMatches new_entry e = false) :
    upsert_drive_to_db db new_entry = db ++ [new_entry] := by
  induction db with
  | nil => rfl
  | cons e rest ih =>
      have he := h e (List.mem_cons_self e rest)
      simp only [upsert_drive_to_db, he, Bool.false_eq_true, if_false, List.cons_append,
        List.cons.injEq, true_and]
      exact ih (fun x hx => h x (List.mem_cons_of_mem e hx))

lemma upsert_first_match (pre : List DBEntry) (e : DBEntry) (post : List DBEntry)
    (new_entry : DBEntry)
    (hpre : ∀ x ∈ pre, entryMatches new_entry x = false)
    (he : entryMatches new_entry e = true) :
    upsert_drive_to_db (pre ++ e :: post) new_entry = pre ++ new_entry :: post := by
  induction pre with
  | nil => simp [upsert_drive_to_db, he]
  | cons x rest ih =>
      have hx := hpre x (List.mem_cons_self x rest)
      simp only [List.cons_append, upsert_drive_to_db, hx, Bool.false_eq_true, if_false,
        List.cons.injEq, true_and]
      exact ih (fun y hy => hpre y (List.mem_cons_of_mem x hy))

/-- Claim C10: upsert_drive_to_db modifies at most one entry: when no entry
matches the new entry's (device_id, drive) pair the new entry is appended at
the end, and when the database splits as pre ++ e :: post with e the first
match, exactly e is replaced, the length is unchanged, and every other entry
keeps its value and position. -/
theorem c10_upsert (db : List DBEntry) (new_entry : DBEntry) :
    ((∀ e ∈ db, entryMatches new_entry e = false) →
      upsert_drive_to_db db new_entry = db ++ [new_entry]) ∧
    (∀ (pre : List DBEntry) (e : DBEntry) (post : List DBEntry),
      db = pre ++ e :: post →
      (∀ x ∈ pre, entryMatches new_entry x = false) →
      entryMatches new_entry e = true →
      upsert_drive_to_db db new_entry = pre ++ new_entry :: post ∧
      (upsert_drive_to_db db new_entry).length = db.length) := by
  refine ⟨upsert_no_match db new_entry, ?_⟩
  intro pre e post hdb hpre he
  subst hdb
  refine ⟨upsert_first_match pre e post new_entry hpre he, ?_⟩
  rw [upsert_first_match pre e post new_entry hpre he]
  simp

/-- First database entry of the C10 witness. -/
def c10e1 : DBEntry := { device_id := some "dev", drive := some "d1", fields := [] }

/-- Second database entry of the C10 witness. -/
def c10e2 : DBEntry := { device_id := some "dev", drive := some "d2", fields := [] }

/-- Replacement entry of the C10 witness, keyed like c10e2. -/
def c10new : DBEntry :=
  { device_id := some "dev", drive := some "d2", fields := [("odo_distance", "12.3")] }

/-- Claim C10, witness: replacing the second of two entries keeps the first
entry and the length, and an unmatched entry is appended. -/
theorem c10_witness :
    upsert_drive_to_db [c10e1, c10e2] c10new = [c10e1, c10new] ∧
    (upsert_drive_to_db [c10e1, c10e2] c10new).length = 2 ∧
    upsert_drive_to_db [c10e1] c10e2 = [c10e1, c10e2] := by
  have h2 := (c10_upsert [c10e1, c10e2] c10new).2 [c10e1] c10e2 [] rfl
    (by intro x hx; simp at hx; subst hx; decide) (by decide)
  have h1 := (c10_upsert [c10e1] c10e2).1 (by intro x hx; simp at hx; subst hx; decide)
  exact ⟨h2.1, h2.2, h1⟩

/-! Claim C4: trailing-edge speed bucket aggregation. -/

lemma bucketAdd_time (pe : Bool) (delta : ℤ) (dd : ℚ) (b : SpeedBucketData) :
    (bucketAdd pe delta dd b).time = b.time + delta := by
  rcases pe <;> rfl

lemma bucketAdd_distance (pe : Bool) (delta : ℤ) (dd : ℚ) (b : SpeedBucketData) :
    (bucketAdd pe delta dd b).distance = b.distance + dd := by
  rcases pe <;> rfl

lemma bucketAdd_engaged_time (pe : Bool) (delta : ℤ) (dd : ℚ) (b : SpeedBucketData) :
    (bucketAdd pe delta dd b).engaged_time =
      b.engaged_time + (if pe then delta else 0) := by
  rcases pe <;> simp [bucketAdd]

lemma bucketAdd_engaged_distance (pe : Bool) (delta : ℤ) (dd : ℚ) (b : SpeedBucketData) :
    (bucketAdd pe delta dd b).engaged_distance =
      b.engaged_distance + (if pe then dd else 0) := by
  rcases pe <;> simp [bucketAdd]

lemma get_modify_same (m : SpeedBucketsAcc) (key : String)
    (f : SpeedBucketData → SpeedBucketData) :
    (m.modify key f).get key = f (m.get key) := by
  unfold SpeedBucketsAcc.modify SpeedBucketsAcc.get
  split_ifs <;> rfl

lemma get_modify_other (m : SpeedBucketsAcc) (key k : String)
    (f : SpeedBucketData → SpeedBucketData)
    (hk : k = "city" ∨ k = "road" ∨ k = "highway")
    (hkey : key = "city" ∨ key = "road" ∨ key = "highway")
    (hne : k ≠ key) :
    (m.modify key f).get k = m.get k := by
  rcases hk with rfl | rfl | rfl <;> rcases hkey with rfl | rfl | rfl <;>
    first
    | exact absurd rfl hne
    | rfl

lemma bucketTimeSum_modify_add (m : SpeedBucketsAcc) (key : String) (pe : Bool)
    (delta : ℤ) (dd : ℚ) :
    bucketTimeSum (m.modify key (bucketAdd pe delta dd)) = bucketTimeSum m + delta := by
  unfold SpeedBucketsAcc.modify bucketTimeSum
  split_ifs <;> simp [bucketAdd_time] <;> ring

lemma carStateStepDev_pos (st : CarStateAcc) (msg : CarStateSample) (lt : ℤ)
    (hlt : st.last_carstate_time = some lt) (hpos : lt < msg.logMonoTime) :
    (carStateStepDev st msg).buckets =
      st.buckets.modify (speed_bucket_for st.prev_speed)
        (bucketAdd st.prev_engaged (msg.logMonoTime - lt)
          (st.prev_speed * (((msg.logMonoTime - lt : ℤ) : ℚ) / 1000000000) / 1000)) ∧
    (carStateStepDev st msg).last_carstate_time = some msg.logMonoTime ∧
    (carStateStepDev st msg).prev_engaged = msg.engaged ∧
    (carStateStepDev st msg).prev_speed = msg.vEgo := by
  rcases st with ⟨bk, lct, ps, pe, pm, dt, dta⟩
  have h1 : lct = some lt := hlt
  subst h1
  have hd : msg.logMonoTime - lt > 0 := by omega
  simp only [carStateStepDev, hd, if_pos]
  split_ifs <;> simp

lemma carStateStepDev_sum (msgs : List CarStateSample) (st : CarStateAcc)
    (prev : CarStateSample)
    (hlt : st.last_carstate_time = some prev.logMonoTime)
    (hchain : List.Chain (fun a b => a.logMonoTime < b.logMonoTime) prev msgs) :
    bucketTimeSum (msgs.foldl carStateStepDev st).buckets =
      bucketTimeSum st.buckets + ((msgs.getLastD prev).logMonoTime - prev.logMonoTime) := by
  induction msgs generalizing st prev with
  | nil => simp
  | cons m rest ih =>
      rcases hchain with _ | ⟨hlt2, hchain2⟩
      have hstep := carStateStepDev_pos st m prev.logMonoTime hlt hlt2
      have hsum : bucketTimeSum (carStateStepDev st m).buckets =
          bucketTimeSum st.buckets + (m.logMonoTime - prev.logMonoTime) := by
        rw [hstep.1, bucketTimeSum_modify_add]
      have hrest := ih (carStateStepDev st m) m hstep.2.1 hchain2
      rw [List.foldl_cons, hrest, hsum, List.getLastD_cons]
      ring

/-- Claim C4: on a carState sample following a previous one with a strictly
smaller timestamp, the interval is classified by the previous sample's speed:
its delta is added to exactly that bucket's time, the scaled distance
increment to that bucket's distance, the same amounts to the engaged counters
exactly when prev_engaged held, every other bucket is untouched, and
prev_engaged and prev_speed are refreshed from the current sample; over any
segment whose carState samples have strictly increasing timestamps the three
bucket times sum to the elapsed span from the first to the last sample. -/
theorem c4_speed_buckets :
    (∀ (st : CarStateAcc) (msg : CarStateSample) (lt : ℤ),
      st.last_carstate_time = some lt → lt < msg.logMonoTime →
      ((carStateStepDev st msg).buckets.get (speed_bucket_for st.prev_speed)).time =
        (st.buckets.get (speed_bucket_for st.prev_speed)).time + (msg.logMonoTime - lt) ∧
      ((carStateStepDev st msg).buckets.get (speed_bucket_for st.prev_speed)).distance =
        (st.buckets.get (speed_bucket_for st.prev_speed)).distance +
          st.prev_speed * (((msg.logMonoTime - lt : ℤ) : ℚ) / 1000000000) / 1000 ∧
      ((carStateStepDev st msg).buckets.get (speed_bucket_for st.prev_speed)).engaged_time =
        (st.buckets.get (speed_bucket_for st.prev_speed)).engaged_time +
          (if st.prev_engaged then msg.logMonoTime - lt else 0) ∧
      ((carStateStepDev st msg).buckets.get (speed_bucket_for st.prev_speed)).engaged_distance =
        (st.buckets.get (speed_bucket_for st.prev_speed)).engaged_distance +
          (if st.prev_engaged
           then st.prev_speed * (((msg.logMonoTime - lt : ℤ) : ℚ) / 1000000000) / 1000
           else 0) ∧
      (∀ k : String, (k = "city" ∨ k = "road" ∨ k = "highway") →
        k ≠ speed_bucket_for st.prev_speed →
        (carStateStepDev st msg).buckets.get k = st.buckets.get k) ∧
      (carStateStepDev st msg).prev_engaged = msg.engaged ∧
      (carStateStepDev st msg).prev_speed = msg.vEgo) ∧
    (∀ (first : CarStateSample) (rest : List CarStateSample),
      List.Chain (fun a b => a.logMonoTime < b.logMonoTime) first rest →
      bucketTimeSum ((first :: rest).foldl carStateStepDev initCarStateAcc).buckets =
        (rest.getLastD first).logMonoTime - first.logMonoTime) := by
  constructor
  · intro st msg lt hlt hpos
    have hstep := carStateStepDev_pos st msg lt hlt hpos
    refine ⟨?_, ?_, ?_, ?_, ?_, hstep.2.2.1, hstep.2.2.2⟩
    · rw [hstep.1, get_modify_same, bucketAdd_time]
    · rw [hstep.1, get_modify_same, bucketAdd_distance]
    · rw [hstep.1, get_modify_same, bucketAdd_engaged_time]
    · rw [hstep.1, get_modify_same, bucketAdd_engaged_distance]
    · intro k hk hne
      rw [hstep.1, get_modify_other st.buckets (speed_bucket_for st.prev_speed) k _ hk
        (speed_bucket_for_cases st.prev_speed) hne]
  · intro first rest hchain
    rw [List.foldl_cons]
    have h0 : (carStateStepDev initCarStateAcc first).last_carstate_time =
        some first.logMonoTime := rfl
    have h0b : (carStateStepDev initCarStateAcc first).buckets = initCarStateAcc.buckets := rfl
    have hs := carStateStepDev_sum rest (carStateStepDev initCarStateAcc first) first h0 hchain
    rw [hs, h0b]
    simp [initCarStateAcc, initBucketData, bucketTimeSum]

/-- Aggregator state of the C4 witness: previous sample at time 0 with speed
5 m/s while engaged. -/
def c4State : CarStateAcc :=
  { initCarStateAcc with last_carstate_time := some 0, prev_speed := 5, prev_engaged := true }

/-- Second carState sample of the C4 witness. -/
def c4Msg : CarStateSample := { logMonoTime := 1000000000, vEgo := 10, engaged := false }

/-- First carState sample of the C4 witness. -/
def c4First : CarStateSample := { logMonoTime := 0, vEgo := 5, engaged := true }

/-- Claim C4, witness: one second at 5 m/s lands one second in the city
bucket, and a two-sample segment sums to its elapsed span. -/
theorem c4_witness :
    ((carStateStepDev c4State c4Msg).buckets.get "city").time = 1000000000 ∧
    bucketTimeSum (([c4First, c4Msg].foldl carStateStepDev initCarStateAcc).buckets) =
      1000000000 := by
  have hkey : speed_bucket_for c4State.prev_speed = "city" :=
    speed_bucket_city 5 (by norm_num) (by norm_num)
  have h := c4_speed_buckets.1 c4State c4Msg 0 rfl (by norm_num [c4State, c4Msg])
  rw [hkey] at h
  have h2 := c4_speed_buckets.2 c4First [c4Msg]
    (List.Chain.cons (by norm_num [c4First, c4Msg]) List.Chain.nil)
  constructor
  · rw [h.1]
    norm_num [c4State, c4Msg, initCarStateAcc, initBucketData, SpeedBucketsAcc.get]
  · rw [h2]
    norm_num [c4First, c4Msg]

/-! Claim C5: unreadable segments are skipped without aborting the drive. -/

lemma accumulateSegment_init (d : DriveAcc) : accumulateSegment d initSegAcc = d := by
  rcases d with ⟨t, a, dt, dta, cp, os, oe, ed, lo, ce, esc, iv, tsi, les, pr⟩
  simp [accumulateSegment, initSegAcc]

lemma processSegment_none (enable : Bool) (d : DriveAcc) :
    processSegment enable d none = d :=
  accumulateSegment_init d

/-- Claim C5: a segment whose event stream cannot be obtained or parsed
contributes zero to every counter and is skipped without aborting the drive:
removing it from the segment list leaves the returned statistics unchanged,
and in particular a two-segment drive whose second segment is unreadable
returns exactly the statistics of its first segment alone (the returned value
always exists, so odo_distance and engagement_pct come from segment 1 only). -/
theorem c5_unreadable_segment (enable : Bool) (pre post : List (Option (List LogMsg))) :
    process_drive_offline enable (pre ++ none :: post) =
      process_drive_offline enable (pre ++ post) ∧
    (∀ seg1 : List LogMsg,
      process_drive_offline enable [some seg1, none] =
        process_drive_offline enable [some seg1]) := by
  constructor
  · unfold process_drive_offline
    rw [List.foldl_append, List.foldl_append, List.foldl_cons, processSegment_none]
  · intro seg1
    unfold process_drive_offline
    simp only [List.foldl_cons, List.foldl_nil, processSegment_none]

/-! Claim C6: nullability and value of the per-100km rates. -/

/-- CAN frame of the C6 drive carrying odometer value 100.0 km. -/
def c6Frame1 : CanFrame := { src := 0, address := 1264, dat := [0, 0, 0, 0, 0, 232, 3, 0] }

/-- CAN frame of the C6 drive carrying odometer value 100.3 km. -/
def c6Frame2 : CanFrame := { src := 0, address := 1264, dat := [0, 0, 0, 0, 0, 235, 3, 0] }

/-- Event stream of the C6 drive: one disengage-re-engage cycle followed by
odometer readings 100.0 and 100.3 km. -/
def c6Msgs : List LogMsg :=
  [LogMsg.controlsState 1000000000 true,
   LogMsg.controlsState 2000000000 false,
   LogMsg.controlsState 3000000000 true,
   LogMsg.can 4000000000 [c6Frame1],
   LogMsg.can 5000000000 [c6Frame2]]

/-- Drive accumulator reached by the C6 drive. -/
def c6Acc : DriveAcc :=
  { total_time := 2000000000, active_time := 0, drive_time := 0, drive_time_active := 0,
    cruise_press_time_ns := 0, odo_start := some 100, odo_end := some (1003 / 10),
    engaged_distance := 3 / 10, last_odo := some (1003 / 10), currently_engaged := true,
    engagement_state_changes := 2, interventions := 1,
    total_steer_interventions := 0, last_engagement_state := some true,
    pending_reengagement := false }

lemma c6_fold_eval : [some c6Msgs].foldl (processSegment false) initDriveAcc = c6Acc := by
  simp [c6Msgs, List.foldl, processSegment, processMsg, processControlsState,
    processCanFrame, c6Frame1, c6Frame2, byteAt, List.getD, initDriveAcc, initSegAcc,
    accumulateSegment, ENGAGEMENT_BUFFER_NS, c6Acc]
  norm_num

lemma pyRound_three_tenths : pyRound (3 / 10) 1 = 3 / 10 := by
  have h1 : ((3 : ℚ) / 10) * 10 ^ 1 = 3 := by norm_num
  have h2 : ⌊(3 : ℚ)⌋ = 3 := by norm_num
  unfold pyRound roundHalfEven
  rw [h1, h2]
  norm_num

lemma pyRound_c6_rate : pyRound ((1 : ℚ) / (3 / 10) * 100) 2 = 33333 / 100 := by
  have h1 : ((1 : ℚ) / (3 / 10) * 100) * 10 ^ 2 = 100000 / 3 := by norm_num
  have h2 : ⌊(100000 : ℚ) / 3⌋ = 33333 := by
    rw [Int.floor_eq_iff]
    norm_num
  unfold pyRound roundHalfEven
  rw [h1, h2]
  norm_num

lemma c6_odo_eval : (process_drive_offline false [some c6Msgs]).odo_distance = some (3 / 10) := by
  have hpd : process_drive_offline false [some c6Msgs] = finalizeDrive c6Acc := by
    unfold process_drive_offline
    rw [c6_fold_eval]
  have harg : (1003 : ℚ) / 10 - 100 = 3 / 10 := by norm_num
  rw [hpd]
  show finalOdoDistance c6Acc = some (3 / 10)
  simp [finalOdoDistance, c6Acc, harg, pyRound_three_tenths]

/-- Claim C6, counterexample: the C6 drive has odo_distance 0.3 km and one
intervention, and its stored interventions_per_100km is 333.33 — the rounded
value — which differs from intervention_count divided by odo_distance times
100, namely 1000/3 = 333.333...; the claim's exact equality fails. -/
theorem c6_counterexample :
    (process_drive_offline false [some c6Msgs]).odo_distance = some (3 / 10) ∧
    (process_drive_offline false [some c6Msgs]).intervention_count = 1 ∧
    (process_drive_offline false [some c6Msgs]).interventions_per_100km = some (33333 / 100) ∧
    ((33333 : ℚ) / 100) ≠ (1 : ℚ) / (3 / 10) * 100 := by
  have hpd : process_drive_offline false [some c6Msgs] = finalizeDrive c6Acc := by
    unfold process_drive_offline
    rw [c6_fold_eval]
  refine ⟨c6_odo_eval, by rw [hpd]; rfl, ?_, by norm_num⟩
  have hodo : finalOdoDistance c6Acc = some (3 / 10) := by
    have h := c6_odo_eval
    rw [hpd] at h
    exact h
  rw [hpd]
  show (match finalOdoDistance c6Acc with
    | some dist =>
        if dist ≠ 0 ∧ dist > 0 then
          some (pyRound ((c6Acc.interventions : ℚ) / dist * 100) 2)
        else none
    | none => none) = some (33333 / 100)
  rw [hodo]
  have hc : ((3 : ℚ) / 10) ≠ 0 ∧ ((3 : ℚ) / 10) > 0 := by norm_num
  show (if (3 : ℚ) / 10 ≠ 0 ∧ (3 : ℚ) / 10 > 0 then
      some (pyRound ((c6Acc.interventions : ℚ) / (3 / 10) * 100) 2)
    else none) = some (33333 / 100)
  rw [if_pos hc]
  have hval : ((c6Acc.interventions : ℚ) / (3 / 10) * 100) = (1 : ℚ) / (3 / 10) * 100 := by
    norm_num [c6Acc]
  rw [hval, pyRound_c6_rate]

/-- Claim C6, amended: when odo_distance is null or not strictly positive,
engagement_pct_odo, interventions_per_100km and steer_interventions_per_100km
are all null; otherwise each per-100km rate equals the count divided by
odo_distance times 100 rounded to two decimal places, so null stays
distinguishable from zero. -/
theorem c6_amended (enable : Bool) (segs : List (Option (List LogMsg))) :
    ((process_drive_offline enable segs).odo_distance = none →
      (process_drive_offline enable segs).engagement_pct_odo = none ∧
      (process_drive_offline enable segs).interventions_per_100km = none ∧
      (process_drive_offline enable segs).steer_interventions_per_100km = none) ∧
    (∀ dist : ℚ, (process_drive_offline enable segs).odo_distance = some dist → dist ≤ 0 →
      (process_drive_offline enable segs).engagement_pct_odo = none ∧
      (process_drive_offline enable segs).interventions_per_100km = none ∧
      (process_drive_offline enable segs).steer_interventions_per_100km = none) ∧
    (∀ dist : ℚ, (process_drive_offline enable segs).odo_distance = some dist → 0 < dist →
      (process_drive_offline enable segs).interventions_per_100km =
        some (pyRound
          (((process_drive_offline enable segs).intervention_count : ℚ) / dist * 100) 2) ∧
      (process_drive_offline enable segs).steer_interventions_per_100km =
        some (pyRound
          (((process_drive_offline enable segs).steer_intervention_count : ℚ) / dist * 100) 2)) := by
  refine ⟨?_, ?_, ?_⟩
  · intro h0
    have h0a : finalOdoDistance (segs.foldl (processSegment enable) initDriveAcc) = none := h0
    exact ⟨by simp [process_drive_offline, finalizeDrive, h0a],
      by simp [process_drive_offline, finalizeDrive, h0a],
      by simp [process_drive_offline, finalizeDrive, h0a]⟩
  · intro dist hdist hle
    have hda : finalOdoDistance (segs.foldl (processSegment enable) initDriveAcc) =
        some dist := hdist
    have hc : ¬(dist ≠ 0 ∧ dist > 0) := fun hh => absurd hh.2 (not_lt.2 hle)
    exact ⟨by simp [process_drive_offline, finalizeDrive, hda, hc],
      by simp [process_drive_offline, finalizeDrive, hda, hc],
      by simp [process_drive_offline, finalizeDrive, hda, hc]⟩
  · intro dist hdist hpos
    have hda : finalOdoDistance (segs.foldl (processSegment enable) initDriveAcc) =
        some dist := hdist
    have hc : dist ≠ 0 ∧ dist > 0 := ⟨ne_of_gt hpos, hpos⟩
    constructor
    · simp [process_drive_offline, finalizeDrive, hda, hc]
    · simp [process_drive_offline, finalizeDrive, hda, hc]

/-- Event stream of the C6 witness drive with decreasing odometer readings. -/
def c6MsgsNeg : List LogMsg :=
  [LogMsg.can 1000000000 [c6Frame2], LogMsg.can 2000000000 [c6Frame1]]

/-- Drive accumulator reached by the C6 witness drive with decreasing
odometer readings. -/
def c6AccNeg : DriveAcc :=
  { initDriveAcc with
      odo_start := some (1003 / 10), odo_end := some 100, last_odo := some 100 }

lemma c6_fold_neg_eval :
    [some c6MsgsNeg].foldl (processSegment false) initDriveAcc = c6AccNeg := by
  simp [c6MsgsNeg, List.foldl, processSegment, processMsg, processCanFrame,
    c6Frame1, c6Frame2, byteAt, List.getD, initDriveAcc, initSegAcc,
    accumulateSegment, c6AccNeg]
  norm_num

lemma pyRound_neg_three_tenths : pyRound (100 - 1003 / 10 : ℚ) 1 = -(3 / 10) := by
  have h1 : ((100 : ℚ) - 1003 / 10) * 10 ^ 1 = -3 := by norm_num
  have h2 : ⌊(-3 : ℚ)⌋ = -3 := by norm_num
  unfold pyRound roundHalfEven
  rw [h1, h2]
  norm_num

lemma c6_odo_neg_eval :
    (process_drive_offline false [some c6MsgsNeg]).odo_distance = some (-(3 / 10)) := by
  have hpd : process_drive_offline false [some c6MsgsNeg] = finalizeDrive c6AccNeg := by
    unfold process_drive_offline
    rw [c6_fold_neg_eval]
  rw [hpd]
  show finalOdoDistance c6AccNeg = some (-(3 / 10))
  simp [finalOdoDistance, c6AccNeg, initDriveAcc, pyRound_neg_three_tenths]

/-- Claim C6, witness: the amended theorem applied to the C6 drive (positive
odo_distance 0.3 km), to a drive without odometer data, and to a drive with
negative odo_distance. -/
theorem c6_witness :
    (process_drive_offline false [some c6Msgs]).interventions_per_100km =
      some (pyRound
        (((process_drive_offline false [some c6Msgs]).intervention_count : ℚ) / (3 / 10) * 100) 2) ∧
    (process_drive_offline false [some c6Msgs]).steer_interventions_per_100km =
      some (pyRound
        (((process_drive_offline false [some c6Msgs]).steer_intervention_count : ℚ) / (3 / 10) * 100) 2) ∧
    (process_drive_offline false []).interventions_per_100km = none ∧
    (process_drive_offline false [some c6MsgsNeg]).interventions_per_100km = none :=
  ⟨((c6_amended false [some c6Msgs]).2.2 (3 / 10) c6_odo_eval (by norm_num)).1,
   ((c6_amended false [some c6Msgs]).2.2 (3 / 10) c6_odo_eval (by norm_num)).2,
   ((c6_amended false []).1 rfl).2.1,
   ((c6_amended false [some c6MsgsNeg]).2.1 (-(3 / 10)) c6_odo_neg_eval (by norm_num)).2.1⟩

/-! Claim C7: determinism of drive processing. -/

/-- Claim C7: drive processing is a pure function of the intervention
capability flag and the ordered segment event streams; two runs on identical
inputs, each from the fresh initial accumulator built inside
process_drive_offline, return identical statistics — the embedding takes no
wall-clock, random or cross-drive input at all. -/
theorem c7_deterministic (enable : Bool) (segs1 segs2 : List (Option (List LogMsg)))
    (h : segs1 = segs2) :
    process_drive_offline enable segs1 = process_drive_offline enable segs2 := by
  rw [h]

/-- Segment list of the C7 witness. -/
def c7Segs : List (Option (List LogMsg)) :=
  [some [LogMsg.controlsState 1000000000 true], none]

/-- Claim C7, witness: the determinism theorem applied at a concrete
two-segment drive. -/
theorem c7_witness :
    process_drive_offline true c7Segs = process_drive_offline true c7Segs :=
  c7_deterministic true c7Segs c7Segs rfl
